import Mathlib

/-
  Verification of the KAGRA frontends' client-side authorization core.

  The development shallowly embeds:
  - frontend-system/src/lib/api.ts            (getAuthHeaders, apiRequest, apiClient)
  - frontend-system/src/contexts/AuthContext.tsx
      (checkSystemAdminPermission, checkUserPermissions, AuthProvider useEffect:
       getInitialSession and the onAuthStateChange handler)
  - frontend-system App.tsx ProtectedRoute    (the system-admin route guard)
  - frontend-main/src/components/RouteGuard.tsx
  - frontend-main/src/contexts/AuthContext.tsx
      (checkAdminPermission, checkTenantAdminPermission, checkUserPermissions)

  Asynchronous JavaScript computations are modelled by the Async type below:
  a computation either settles after a number of milliseconds with a value, or
  hangs (its promise never settles).  Sequencing adds the delays.  The event
  loop interleaving of the AuthProvider handlers is modelled by a small-step
  machine whose steps are the scheduler-level units of the source: a handler
  runs atomically up to its first await, and the continuation after the await
  runs atomically when the awaited permission check resolves.
-/

namespace Kagra

/-- An asynchronous computation: either settles after a delay (in
milliseconds) with a value, or never settles. -/
inductive Async (α : Type) where
  | settles (t : Nat) (v : α)
  | hangs
deriving Repr

/-- Shift a settled computation later by a delay; hanging stays hanging. -/
def Async.after {α : Type} (t : Nat) : Async α → Async α
  | .settles u v => .settles (t + u) v
  | .hangs => .hangs

/-- Sequencing of asynchronous computations: delays add up, and a hang at
either stage hangs the whole computation. -/
def Async.bind {α β : Type} : Async α → (α → Async β) → Async β
  | .settles t v, f => Async.after t (f v)
  | .hangs, _ => .hangs

/-- The asynchronous computation settles (at some time) with the given
value. -/
def Async.resolvesTo {α : Type} (a : Async α) (v : α) : Prop :=
  ∃ t, a = Async.settles t v

/-- JSON values, as delivered by response.json(). -/
inductive Json where
  | null
  | bool (b : Bool)
  | str (s : String)
  | num (n : Int)
  | arr (elems : List Json)
  | obj (fields : List (String × Json))

/-- Property access on a parsed JSON value: a field of an object, undefined
otherwise (optional chaining on a non-object yields undefined). -/
def Json.getField : Json → String → Option Json
  | .obj fields, key => fields.lookup key
  | _, _ => none

/-- JavaScript strict equality of an optionally-absent JSON value with the
boolean literal true: holds exactly when the value is present and is the
boolean true. -/
def strictTrue : Option Json → Bool
  | some (.bool true) => true
  | _ => false

/-- A Supabase user as used by the authorization core. -/
structure User where
  id : String
  email : String
deriving DecidableEq, Repr

/-- A Supabase session: the bearer access token and its user.  An empty
access token models a missing or falsy token. -/
structure Session where
  access_token : String
  user : User
deriving DecidableEq, Repr

/-- The errors the embedded client code can throw. -/
inductive JsError where
  /-- getAuthHeaders throws when no session or no access token is present. -/
  | authRequired
  /-- apiRequest rethrows the AbortError of its 10-second timeout as a
  timeout error. -/
  | abortTimeout
  /-- apiRequest throws on a non-2xx response, carrying status and parsed
  error body. -/
  | httpErr (status : Nat) (body : Json)
  /-- fetch itself rejected (network failure). -/
  | networkErr (msg : String)
  /-- response.json() failed on a 2xx response. -/
  | jsonParseErr

/-- What the network does for one fetch call: a 2xx response with a parsed
JSON body, a 2xx response whose body fails to parse, a non-2xx response, or
a rejection of the fetch promise. -/
inductive FetchOutcome where
  | success (body : Json)
  | badBody
  | httpError (status : Nat) (body : Json)
  | networkError (msg : String)

/-- The external world of the frontend-system client: the Supabase session
store and the network.  getSession models supabase.auth.getSession(),
returning the pair (data.session, error); fetch is keyed by the full request
URL and the Authorization header value. -/
structure Env where
  getSession : Async (Option Session × Option String)
  fetch : String → String → Async FetchOutcome

/-- frontend-system/src/lib/api.ts line 3. -/
def API_BASE_URL : String := "/api/v1"

/-- The Authorization header getAuthHeaders produces from the session it
fetched, or the error it throws: no session or an empty access token throws
the authentication-required error; the error field of getSession is ignored,
as in the source destructuring. -/
def authHeaderResult : Option Session → Except JsError String
  | some s => if s.access_token = "" then .error .authRequired
              else .ok ("Bearer " ++ s.access_token)
  | none => .error .authRequired

/-- frontend-system/src/lib/api.ts getAuthHeaders: await getSession, then
either the Bearer header or a thrown error. -/
def getAuthHeaders (env : Env) : Async (Except JsError String) :=
  Async.bind env.getSession (fun r => Async.settles 0 (authHeaderResult r.1))

/-- How apiRequest turns a completed fetch into a return value or a thrown
error: 2xx returns the parsed body, a 2xx body that fails to parse throws,
non-2xx throws an HTTP error, and a fetch rejection is rethrown. -/
def interpretResponse : FetchOutcome → Except JsError Json
  | .success body => .ok body
  | .badBody => .error .jsonParseErr
  | .httpError status body => .error (.httpErr status body)
  | .networkError msg => .error (.networkErr msg)

/-- The 10-second AbortController race inside apiRequest: if the fetch has
not completed within 10000 ms it is aborted and the AbortError is rethrown
as a timeout error at 10000 ms; an earlier completion wins. -/
def abortFetch : Async FetchOutcome → Async (Except JsError Json)
  | .settles t o =>
      if t < 10000 then .settles t (interpretResponse o)
      else .settles 10000 (.error .abortTimeout)
  | .hangs => .settles 10000 (.error .abortTimeout)

/-- frontend-system/src/lib/api.ts apiRequest: await getAuthHeaders (whose
thrown error propagates), then fetch API_BASE_URL ++ endpoint with the
Authorization header under the 10-second abort timer.  Note the full URL is
the base prefixed to the endpoint argument. -/
def apiRequest (env : Env) (endpoint : String) : Async (Except JsError Json) :=
  Async.bind (getAuthHeaders env) (fun h =>
    match h with
    | .error e => Async.settles 0 (.error e)
    | .ok auth => abortFetch (env.fetch (API_BASE_URL ++ endpoint) auth))

/-- The endpoint string passed to apiClient.get in checkSystemAdminPermission
(frontend-system AuthContext.tsx line 65). -/
def permissionsEndpoint (userId : String) : String :=
  "/api/v1/admin/system/users/" ++ userId ++ "/permissions"

/-- How checkSystemAdminPermission uses the result of its own getSession
call (frontend-system AuthContext.tsx lines 40-47): an error causes the
early return of false (modelled as none), otherwise the fetched session —
possibly absent — becomes the current session. -/
def sessionDecision (sr : Option Session × Option String) : Option (Option Session) :=
  match sr.2 with
  | some _ => none
  | none => some sr.1

/-- The session-resolution step of checkSystemAdminPermission
(frontend-system AuthContext.tsx lines 35-50): the supplied session is used
as is; without one, getSession is awaited and its outcome classified by
sessionDecision. -/
def sessionStep (env : Env) : Option Session → Async (Option (Option Session))
  | some s => Async.settles 0 (some (some s))
  | none => Async.bind env.getSession (fun r => Async.settles 0 (sessionDecision r))

/-- The permission call of checkSystemAdminPermission (frontend-system
AuthContext.tsx lines 64-72): await apiClient.get of the permissions
endpoint — a thrown error propagates to the surrounding catch — and compare
the is_system_admin field of the response strictly with true. -/
def permResult (env : Env) (userId : String) : Async (Except JsError Bool) :=
  Async.bind (apiRequest env (permissionsEndpoint userId)) (fun resp =>
    match resp with
    | .error e => Async.settles 0 (.error e)
    | .ok body =>
        Async.settles 0 (.ok (strictTrue (Json.getField body "is_system_admin"))))

/-- The body of the try block of checkSystemAdminPermission
(frontend-system AuthContext.tsx lines 32-73): resolve the current session,
return false early when the session fetch errored, when there is no
session, or when the access token is empty, and otherwise run the
permission call. -/
def checkBody (env : Env) (userId : String) (existingSession : Option Session) :
    Async (Except JsError Bool) :=
  Async.bind (sessionStep env existingSession) (fun r =>
    match r with
    | none => Async.settles 0 (.ok false)
    | some none => Async.settles 0 (.ok false)
    | some (some s) =>
        if s.access_token = "" then Async.settles 0 (.ok false)
        else permResult env userId)

/-- The catch block of checkSystemAdminPermission (frontend-system
AuthContext.tsx lines 74-79): any thrown error resolves to false. -/
def catchFalse : Except JsError Bool → Bool
  | .ok b => b
  | .error _ => false

/-- frontend-system AuthContext.tsx checkSystemAdminPermission: the try body
with every thrown error caught and turned into a resolved false. -/
def checkSystemAdminPermission (env : Env) (userId : String)
    (existingSession : Option Session) : Async (Except JsError Bool) :=
  Async.bind (checkBody env userId existingSession) (fun r =>
    Async.settles 0 (.ok (catchFalse r)))

/-- frontend-system AuthContext.tsx checkUserPermissions (lines 83-107):
Promise.race of checkSystemAdminPermission (called without a session)
against a 15000 ms rejecting timer, with the catch resolving any rejection
to false.  The returned boolean is the value stored into isSystemAdmin. -/
def checkUserPermissions (env : Env) (userId : String) : Async Bool :=
  match checkSystemAdminPermission env userId none with
  | .settles t r =>
      if t < 15000 then Async.settles t (catchFalse r)
      else Async.settles 15000 false
  | .hangs => Async.settles 15000 false

/-- The boolean the caller of checkSystemAdminPermission observes for one
completed fetch outcome: true exactly for a 2xx body whose is_system_admin
field is strictly true. -/
def permVerdict : FetchOutcome → Bool
  | .success body => strictTrue (Json.getField body "is_system_admin")
  | _ => false

/-- The value the permission call produces from one completed fetch
outcome before the surrounding catch. -/
def permResponseValue (o : FetchOutcome) : Except JsError Bool :=
  match interpretResponse o with
  | .ok body => .ok (strictTrue (Json.getField body "is_system_admin"))
  | .error e => .error e

/-- The event tags delivered by supabase.auth.onAuthStateChange.  The
handler distinguishes only INITIAL_SESSION from the rest. -/
inductive AuthChangeEvent where
  | initialSession
  | signedIn
  | signedOut
  | tokenRefreshed
  | userUpdated
  | passwordRecovery
deriving DecidableEq, Repr

/-- The React state held by AuthProvider (frontend-system AuthContext.tsx
lines 19-22): user, session, loading and isSystemAdmin. -/
structure AuthState where
  user : Option User
  session : Option Session
  loading : Bool
  isSystemAdmin : Bool
deriving DecidableEq, Repr

/-- The state at mount: useState(null), useState(null), useState(true),
useState(false). -/
def initialAuthState : AuthState :=
  { user := none, session := none, loading := true, isSystemAdmin := false }

/-- The fully signed-out snapshot. -/
def UNAUTHENTICATED : AuthState :=
  { user := none, session := none, loading := false, isSystemAdmin := false }

/-- The AuthProvider together with its outstanding asynchronous permission
checks.  pending holds one token per permission check that some handler has
started and is awaiting; nextId names the next check. -/
structure Machine where
  st : AuthState
  pending : List Nat
  nextId : Nat
deriving DecidableEq, Repr

/-- The machine at mount: initial state, no outstanding checks. -/
def initMachine : Machine :=
  { st := initialAuthState, pending := [], nextId := 0 }

/-- One scheduler-level step of the AuthProvider effect.  change ev sess is
the synchronous prefix of the onAuthStateChange handler for an event;
initialFetch is the resumption of getInitialSession when getSession settles
(ok with a session or none, or a thrown error); resolveCheck id b is the
continuation of a suspended handler when its awaited permission check
resolves with b. -/
inductive Step where
  | change (ev : AuthChangeEvent) (sess : Option Session)
  | initialFetch (res : Except String (Option Session))
  | resolveCheck (id : Nat) (result : Bool)
deriving Repr

/-- The transition function, read off the source handlers
(frontend-system AuthContext.tsx lines 110-186):
- an INITIAL_SESSION event returns before any state update or check;
- any other event with a session sets loading true, stores user and
  session, and suspends awaiting a new permission check;
- any other event without a session sets loading true, clears user and
  session, resets isSystemAdmin, and the finally block ends with loading
  false — the handler completes in one step;
- the initial fetch with a session stores user and session and suspends
  awaiting a new permission check (loading stays true until that check
  resolves); with no session, or on a thrown error, its finally block only
  sets loading false;
- a resolving check runs the suspended continuation: setIsSystemAdmin with
  the result, then the finally block sets loading false.  A resolveCheck
  whose id is not outstanding is a no-op. -/
def step (m : Machine) : Step → Machine
  | .change .initialSession _ => m
  | .change _ (some s) =>
      { st := { m.st with loading := true, user := some s.user, session := some s },
        pending := m.nextId :: m.pending,
        nextId := m.nextId + 1 }
  | .change _ none =>
      { m with st := UNAUTHENTICATED }
  | .initialFetch (.ok (some s)) =>
      { st := { m.st with user := some s.user, session := some s },
        pending := m.nextId :: m.pending,
        nextId := m.nextId + 1 }
  | .initialFetch (.ok none) =>
      { m with st := { m.st with loading := false } }
  | .initialFetch (.error _) =>
      { m with st := { m.st with loading := false } }
  | .resolveCheck id b =>
      if id ∈ m.pending then
        { m with st := { m.st with isSystemAdmin := b, loading := false },
                 pending := m.pending.erase id }
      else m

/-- Run a sequence of scheduler steps from a machine. -/
def run (m : Machine) (steps : List Step) : Machine :=
  steps.foldl step m

/-- The steps that correspond to a handler invocation running to
completion, excluding the INITIAL_SESSION early return: a session-change
handler with no user runs through its finally in one step; the initial
fetch with no user or with a thrown error likewise; and a resolving
outstanding check completes the suspended handler that awaited it.  A
session-change event or initial fetch with a user only suspends its
handler, which completes at the later resolveCheck. -/
def handlerCompletes (m : Machine) : Step → Prop
  | .change .initialSession _ => False
  | .change _ (some _) => False
  | .change _ none => True
  | .initialFetch (.ok (some _)) => False
  | .initialFetch (.ok none) => True
  | .initialFetch (.error _) => True
  | .resolveCheck id _ => id ∈ m.pending

/-- The four outcomes a route guard can produce: render a spinner, redirect
to a path, show the forbidden screen, or render the guarded element. -/
inductive GuardOutcome where
  | spinner
  | redirect (target : String)
  | forbidden
  | render
deriving DecidableEq, Repr

/-- frontend-system App.tsx ProtectedRoute (lines 49-93): loading shows the
spinner, no user redirects to /login, a user without isSystemAdmin gets the
forbidden screen, otherwise the children render. -/
def ProtectedRoute (s : AuthState) : GuardOutcome :=
  if s.loading then .spinner
  else
    match s.user with
    | none => .redirect "/login"
    | some _ => if s.isSystemAdmin then .render else .forbidden

/-- The auth snapshot consumed by the main frontend
(frontend-main AuthContext.tsx): user, loading and the two admin flags. -/
structure MainAuthState where
  user : Option User
  loading : Bool
  isSystemAdmin : Bool
  isAdmin : Bool
deriving DecidableEq, Repr

/-- The default of the redirectPath prop of the main frontend RouteGuard. -/
def defaultRedirectPath : String := "/"

/-- frontend-main/src/components/RouteGuard.tsx (lines 12-45): loading shows
the spinner; a route requiring auth redirects when there is no user; a
route not requiring auth redirects when there is a user (the reverse
guard); otherwise the element renders.  Only user and loading are read from
the auth context. -/
def RouteGuard (requireAuth : Bool) (redirectPath : String) (s : MainAuthState) :
    GuardOutcome :=
  if s.loading then .spinner
  else if requireAuth && s.user.isNone then .redirect redirectPath
  else if !requireAuth && s.user.isSome then .redirect redirectPath
  else .render

/-- A backend request a main-frontend permission function could issue; the
bodies issue none, so only the carrier type matters. -/
structure BackendRequest where
  url : String
deriving DecidableEq, Repr

/-- frontend-main AuthContext.tsx checkAdminPermission (lines 47-63): logs,
returns false; no backend request is issued. -/
def checkAdminPermission (_userId : String) : List BackendRequest × Bool :=
  ([], false)

/-- frontend-main AuthContext.tsx checkTenantAdminPermission (lines 66-82):
logs, returns false; no backend request is issued. -/
def checkTenantAdminPermission (_userId : String) (_tenantId : Option String) :
    List BackendRequest × Bool :=
  ([], false)

/-- frontend-main AuthContext.tsx checkUserPermissions (lines 157-177): sets
isSystemAdmin and isAdmin to false, touching nothing else and issuing no
backend request. -/
def mainCheckUserPermissions (s : MainAuthState) :
    MainAuthState × List BackendRequest :=
  ({ s with isSystemAdmin := false, isAdmin := false }, [])

/-- The environment never answers a fetch with a 2xx parsed body: every
settled fetch outcome is a non-2xx response, a parse failure, or a network
failure. -/
def FetchErrs (env : Env) : Prop :=
  ∀ url auth t o, env.fetch url auth = Async.settles t o →
    ∀ body, o ≠ FetchOutcome.success body

/-- The getSession result offers no usable bearer token: it carries an
error, or no session, or a session whose access token is empty. -/
def SessionMissing (sr : Option Session × Option String) : Prop :=
  sr.2 ≠ none ∨ sr.1 = none ∨ ∀ s, sr.1 = some s → s.access_token = ""

/-- A concrete user for witnesses and counterexamples. -/
def u0 : User := { id := "u0", email := "u0@example.com" }

/-- A concrete session with a non-empty bearer token. -/
def sess0 : Session := { access_token := "tok", user := u0 }

/-- An environment with no stored session and a permission endpoint that
answers HTTP 500 to everything. -/
def env0 : Env :=
  { getSession := Async.settles 0 (none, none),
    fetch := fun _ _ => Async.settles 0 (.httpError 500 .null) }

/-- An environment whose session store takes 6 seconds to answer and whose
network never responds to any request. -/
def env3 : Env :=
  { getSession := Async.settles 6000 (some sess0, none),
    fetch := fun _ _ => Async.hangs }

/-- An environment whose session store answers instantly and whose network
never responds to any request. -/
def env4 : Env :=
  { getSession := Async.settles 0 (some sess0, none),
    fetch := fun _ _ => Async.hangs }

/-- The permission response body of a system administrator. -/
def adminBody : Json := .obj [("is_system_admin", .bool true)]

/-- An environment that answers the admin permission body exactly at one
URL and HTTP 404 everywhere else, exposing which URL the client requests. -/
def envAt (url : String) : Env :=
  { getSession := Async.settles 0 (some sess0, none),
    fetch := fun u _ =>
      if u = url then Async.settles 0 (.success adminBody)
      else Async.settles 0 (.httpError 404 .null) }

/-- The URL the client actually fetches for user u0: the /api/v1 base
prefixed to an endpoint string that already starts with /api/v1. -/
def urlDoubled : String := "/api/v1/api/v1/admin/system/users/u0/permissions"

/-- The endpoint path named by the specification for user u0. -/
def claimedUrl : String := "/api/v1/admin/system/users/u0/permissions"

/-- The interleaving in which a sign-out event arrives while the initial
permission check is outstanding, and that check later resolves true. -/
def staleTrace : List Step :=
  [Step.initialFetch (.ok (some sess0)),
   Step.change .signedOut none,
   Step.resolveCheck 0 true]

@[simp] theorem Async.after_settles {α : Type} (t u : Nat) (v : α) :
    Async.after t (Async.settles u v) = Async.settles (t + u) v := rfl

@[simp] theorem Async.after_hangs {α : Type} (t : Nat) :
    Async.after t (Async.hangs : Async α) = Async.hangs := rfl

@[simp] theorem Async.bind_settles {α β : Type} (t : Nat) (v : α) (f : α → Async β) :
    Async.bind (Async.settles t v) f = Async.after t (f v) := rfl

@[simp] theorem Async.bind_hangs {α β : Type} (f : α → Async β) :
    Async.bind (Async.hangs : Async α) f = Async.hangs := rfl

@[simp] theorem Async.after_zero {α : Type} (a : Async α) :
    Async.after 0 a = a := by
  cases a <;> simp [Async.after]

theorem getAuthHeaders_settles (env : Env) (ts : Nat)
    (sr : Option Session × Option String)
    (h : env.getSession = Async.settles ts sr) :
    getAuthHeaders env = Async.settles ts (authHeaderResult sr.1) := by
  unfold getAuthHeaders
  rw [h]
  simp

theorem abortFetch_settles (a : Async FetchOutcome) :
    ∃ t r, abortFetch a = Async.settles t r := by
  cases a with
  | hangs => exact ⟨10000, .error .abortTimeout, rfl⟩
  | settles u o =>
      by_cases h : u < 10000
      · exact ⟨u, interpretResponse o, by simp [abortFetch, h]⟩
      · exact ⟨10000, .error .abortTimeout, by simp [abortFetch, h]⟩

theorem interpretResponse_err (o : FetchOutcome)
    (ho : ∀ body, o ≠ FetchOutcome.success body) :
    ∃ e, interpretResponse o = .error e := by
  cases o with
  | success body => exact absurd rfl (ho body)
  | badBody => exact ⟨.jsonParseErr, rfl⟩
  | httpError st body => exact ⟨.httpErr st body, rfl⟩
  | networkError m => exact ⟨.networkErr m, rfl⟩

theorem apiRequest_settles (env : Env) (e : String) (ts : Nat)
    (sr : Option Session × Option String)
    (h : env.getSession = Async.settles ts sr) :
    ∃ t r, apiRequest env e = Async.settles t r := by
  unfold apiRequest
  rw [getAuthHeaders_settles env ts sr h]
  cases hh : authHeaderResult sr.1 with
  | error er => exact ⟨ts, .error er, by simp⟩
  | ok auth =>
      obtain ⟨t, r, hr⟩ := abortFetch_settles (env.fetch (API_BASE_URL ++ e) auth)
      exact ⟨ts + t, r, by simp [hr]⟩

theorem apiRequest_no_ok (env : Env) (e : String) (hf : FetchErrs env)
    (t : Nat) (r : Except JsError Json)
    (h : apiRequest env e = Async.settles t r) : ∃ er, r = Except.error er := by
  unfold apiRequest at h
  cases hs : getAuthHeaders env with
  | hangs => rw [hs] at h; simp at h
  | settles u v =>
      rw [hs] at h
      cases v with
      | error er =>
          simp at h
          exact ⟨er, h.2.symm⟩
      | ok auth =>
          simp only [Async.bind_settles] at h
          cases hfo : env.fetch (API_BASE_URL ++ e) auth with
          | hangs =>
              rw [hfo] at h
              simp [abortFetch] at h
              exact ⟨.abortTimeout, h.2.symm⟩
          | settles tf o =>
              rw [hfo] at h
              by_cases hto : tf < 10000
              · simp [abortFetch, hto] at h
                obtain ⟨er, her⟩ := interpretResponse_err o (hf _ _ _ _ hfo)
                exact ⟨er, by rw [← h.2, her]⟩
              · simp [abortFetch, hto] at h
                exact ⟨.abortTimeout, h.2.symm⟩

theorem permResult_fail (env : Env) (uid : String) (hf : FetchErrs env)
    (ts : Nat) (sr : Option Session × Option String)
    (hgs : env.getSession = Async.settles ts sr) :
    ∃ t e, permResult env uid = Async.settles t (Except.error e) := by
  obtain ⟨ta, ra, har⟩ := apiRequest_settles env (permissionsEndpoint uid) ts sr hgs
  obtain ⟨er, her⟩ := apiRequest_no_ok env (permissionsEndpoint uid) hf ta ra har
  subst her
  refine ⟨ta, er, ?_⟩
  unfold permResult
  rw [har]
  simp

theorem checkBody_some_token (env : Env) (uid : String) (s : Session)
    (hs : s.access_token ≠ "") :
    checkBody env uid (some s) = permResult env uid := by
  unfold checkBody sessionStep
  simp [hs]

theorem check_of_body (env : Env) (uid : String) (es : Option Session)
    (u : Nat) (v : Except JsError Bool)
    (h : checkBody env uid es = Async.settles u v) :
    checkSystemAdminPermission env uid es =
      Async.settles u (Except.ok (catchFalse v)) := by
  unfold checkSystemAdminPermission
  rw [h]
  simp

theorem checkBody_nosession (env : Env) (uid : String) (ts : Nat)
    (sr : Option Session × Option String)
    (hgs : env.getSession = Async.settles ts sr) (hm : SessionMissing sr) :
    checkBody env uid none = Async.settles ts (Except.ok false) := by
  unfold checkBody sessionStep
  rw [hgs]
  rcases hm with h2 | h1 | htok
  · cases hsr2 : sr.2 with
    | none => exact absurd hsr2 h2
    | some e => simp [sessionDecision, hsr2]
  · cases hsr2 : sr.2 with
    | none => simp [sessionDecision, hsr2, h1]
    | some e => simp [sessionDecision, hsr2]
  · cases hsr2 : sr.2 with
    | some e => simp [sessionDecision, hsr2]
    | none =>
        cases hsr1 : sr.1 with
        | none => simp [sessionDecision, hsr2, hsr1]
        | some s => simp [sessionDecision, hsr2, hsr1, htok s hsr1]

theorem apiRequest_compute (env : Env) (e : String) (s2 : Session)
    (ts tf : Nat) (er : Option String) (o : FetchOutcome)
    (hgs : env.getSession = Async.settles ts (some s2, er))
    (ht : s2.access_token ≠ "")
    (hf : env.fetch (API_BASE_URL ++ e) ("Bearer " ++ s2.access_token) =
        Async.settles tf o)
    (htf : tf < 10000) :
    apiRequest env e = Async.settles (ts + tf) (interpretResponse o) := by
  unfold apiRequest
  rw [getAuthHeaders_settles env ts (some s2, er) hgs]
  have ha : authHeaderResult ((some s2, er) : Option Session × Option String).1 =
      Except.ok ("Bearer " ++ s2.access_token) := by
    simp [authHeaderResult, ht]
  rw [ha]
  simp [hf, abortFetch, htf]

theorem permResult_compute (env : Env) (uid : String) (s2 : Session)
    (ts tf : Nat) (er : Option String) (o : FetchOutcome)
    (hgs : env.getSession = Async.settles ts (some s2, er))
    (ht : s2.access_token ≠ "")
    (hf : env.fetch (API_BASE_URL ++ permissionsEndpoint uid)
        ("Bearer " ++ s2.access_token) = Async.settles tf o)
    (htf : tf < 10000) :
    permResult env uid = Async.settles (ts + tf) (permResponseValue o) := by
  unfold permResult
  rw [apiRequest_compute env (permissionsEndpoint uid) s2 ts tf er o hgs ht hf htf]
  cases ho : interpretResponse o with
  | ok body => simp [permResponseValue, ho]
  | error e => simp [permResponseValue, ho]

theorem catchFalse_permResponseValue (o : FetchOutcome) :
    catchFalse (permResponseValue o) = permVerdict o := by
  cases o <;> rfl

theorem strictTrue_iff (x : Option Json) :
    strictTrue x = true ↔ x = some (Json.bool true) := by
  cases x with
  | none => simp [strictTrue]
  | some j =>
      cases j with
      | null => simp [strictTrue]
      | bool b => cases b <;> simp [strictTrue]
      | str s => simp [strictTrue]
      | num n => simp [strictTrue]
      | arr xs => simp [strictTrue]
      | obj fs => simp [strictTrue]

theorem check_with_session (env : Env) (uid : String) (s s2 : Session)
    (ts tf : Nat) (er : Option String) (o : FetchOutcome)
    (hs : s.access_token ≠ "")
    (hgs : env.getSession = Async.settles ts (some s2, er))
    (ht : s2.access_token ≠ "")
    (hf : env.fetch (API_BASE_URL ++ permissionsEndpoint uid)
        ("Bearer " ++ s2.access_token) = Async.settles tf o)
    (htf : tf < 10000) :
    checkSystemAdminPermission env uid (some s) =
      Async.settles (ts + tf) (Except.ok (permVerdict o)) := by
  have hb : checkBody env uid (some s) =
      Async.settles (ts + tf) (permResponseValue o) := by
    rw [checkBody_some_token env uid s hs,
        permResult_compute env uid s2 ts tf er o hgs ht hf htf]
  rw [check_of_body env uid (some s) (ts + tf) _ hb, catchFalse_permResponseValue]

theorem checkBody_fail_settles (env : Env) (uid : String) (es : Option Session)
    (hf : FetchErrs env) (ts : Nat) (sr : Option Session × Option String)
    (hgs : env.getSession = Async.settles ts sr) :
    ∃ t v, checkBody env uid es = Async.settles t v ∧ catchFalse v = false := by
  cases es with
  | some s =>
      by_cases htok : s.access_token = ""
      · refine ⟨0, .ok false, ?_, rfl⟩
        unfold checkBody sessionStep
        simp [htok]
      · obtain ⟨t, e, he⟩ := permResult_fail env uid hf ts sr hgs
        exact ⟨t, .error e, by rw [checkBody_some_token env uid s htok, he], rfl⟩
  | none =>
      cases hd : sessionDecision sr with
      | none =>
          refine ⟨ts, .ok false, ?_, rfl⟩
          unfold checkBody sessionStep
          rw [hgs]
          simp [hd]
      | some cur =>
          cases cur with
          | none =>
              refine ⟨ts, .ok false, ?_, rfl⟩
              unfold checkBody sessionStep
              rw [hgs]
              simp [hd]
          | some s =>
              by_cases htok : s.access_token = ""
              · refine ⟨ts, .ok false, ?_, rfl⟩
                unfold checkBody sessionStep
                rw [hgs]
                simp [hd, htok]
              · obtain ⟨t, e, he⟩ := permResult_fail env uid hf ts sr hgs
                refine ⟨ts + t, .error e, ?_, rfl⟩
                unfold checkBody sessionStep
                rw [hgs]
                simp [hd, htok, he]

/-- C1: the system-admin Route Guard is a pure decision function of the
auth snapshot: loading yields the spinner regardless of the other fields;
not loading with no user yields the redirect to /login; not loading with a
user but without the admin flag yields the forbidden screen; otherwise the
guarded page renders. -/
theorem c1_protected_route_guard (s : AuthState) :
    (s.loading = true → ProtectedRoute s = .spinner) ∧
    (s.loading = false → s.user = none → ProtectedRoute s = .redirect "/login") ∧
    (∀ u, s.loading = false → s.user = some u → s.isSystemAdmin = false →
        ProtectedRoute s = .forbidden) ∧
    (∀ u, s.loading = false → s.user = some u → s.isSystemAdmin = true →
        ProtectedRoute s = .render) := by
  obtain ⟨su, ss, sl, sa⟩ := s
  refine ⟨?_, ?_, ?_, ?_⟩ <;> intros <;> simp_all [ProtectedRoute]

/-- Witness for C1 at the four concrete snapshots. -/
theorem c1_protected_route_guard_witness :
    ProtectedRoute ⟨none, none, true, false⟩ = .spinner ∧
    ProtectedRoute ⟨none, none, false, false⟩ = .redirect "/login" ∧
    ProtectedRoute ⟨some u0, some sess0, false, false⟩ = .forbidden ∧
    ProtectedRoute ⟨some u0, some sess0, false, true⟩ = .render :=
  ⟨(c1_protected_route_guard _).1 rfl,
   (c1_protected_route_guard _).2.1 rfl rfl,
   (c1_protected_route_guard _).2.2.1 u0 rfl rfl rfl,
   (c1_protected_route_guard _).2.2.2 u0 rfl rfl rfl⟩

/-- C2: the Permission Resolver is fail-closed: whenever it settles at all
it settles with a resolved boolean, never a thrown error; when called
without a session and the session store yields an error, no session, or a
session without a bearer token, it resolves false; and when every network
answer is a non-2xx response, a parse failure, or a network error, it
resolves false. -/
theorem c2_resolver_fail_closed (env : Env) (uid : String) (es : Option Session)
    (ts : Nat) (sr : Option Session × Option String)
    (hgs : env.getSession = Async.settles ts sr) :
    (∀ t r, checkSystemAdminPermission env uid es = Async.settles t r →
        ∃ b, r = Except.ok b) ∧
    (es = none → SessionMissing sr →
        Async.resolvesTo (checkSystemAdminPermission env uid es) (Except.ok false)) ∧
    (FetchErrs env →
        Async.resolvesTo (checkSystemAdminPermission env uid es) (Except.ok false)) := by
  refine ⟨?_, ?_, ?_⟩
  · intro t r h
    unfold checkSystemAdminPermission at h
    cases hb : checkBody env uid es with
    | hangs => rw [hb] at h; simp at h
    | settles u v =>
        rw [hb] at h
        simp at h
        exact ⟨catchFalse v, h.2.symm⟩
  · intro he hm
    subst he
    exact ⟨ts, check_of_body env uid none ts (.ok false)
      (checkBody_nosession env uid ts sr hgs hm)⟩
  · intro hf
    obtain ⟨t, v, hv, hcf⟩ := checkBody_fail_settles env uid es hf ts sr hgs
    refine ⟨t, ?_⟩
    rw [check_of_body env uid es t v hv, hcf]

/-- Witness for C2: with no stored session and an endpoint answering HTTP
500 to everything, the resolver settles with false. -/
theorem c2_resolver_fail_closed_witness :
    env0.getSession = Async.settles 0 (none, none) ∧
    SessionMissing ((none, none) : Option Session × Option String) ∧
    FetchErrs env0 ∧
    Async.resolvesTo (checkSystemAdminPermission env0 "u0" none)
      (Except.ok false) := by
  have hfe : FetchErrs env0 := by
    intro url auth t o h body
    cases h
    intro hc
    cases hc
  exact ⟨rfl, Or.inr (Or.inl rfl), hfe,
    (c2_resolver_fail_closed env0 "u0" none 0 (none, none) rfl).2.2 hfe⟩

/-- C3 counterexample: the permission checks the Auth State Machine
actually performs (the mount fetch at AuthContext.tsx line 124 and the
session-change handler at line 160) call checkSystemAdminPermission
directly, not the 15-second-wrapped checkUserPermissions.  In env3 the
permission endpoint never responds and the session store answers in 6
seconds: the check resolves false only at 16 seconds — 6 s of header
session fetch plus the 10 s fetch abort — later than the claimed 15-second
bound, so no fixed 15-second timeout wraps it. -/
theorem c3_timeout_counterexample :
    (∀ url auth, env3.fetch url auth = Async.hangs) ∧
    checkSystemAdminPermission env3 "u0" (some sess0) =
      Async.settles 16000 (Except.ok false) ∧
    ¬ (16000 : Nat) ≤ 15000 :=
  ⟨fun _ _ => rfl, rfl, by decide⟩

/-- C3 amended: checkUserPermissions wraps its permission check in a race
against a fixed 15000 ms rejecting timer, so it always settles within 15
seconds, resolving false whenever the inner check hangs or settles no
earlier than the timer; but the checks run by the state machine handlers
invoke checkSystemAdminPermission without that wrapper, where an
unresponsive endpoint is bounded only by the 10-second fetch abort (10
seconds when the session store answers instantly). -/
theorem c3_amended_fixed_timeout (env : Env) (uid : String) :
    (∃ t b, checkUserPermissions env uid = Async.settles t b ∧ t ≤ 15000) ∧
    (checkSystemAdminPermission env uid none = Async.hangs →
        checkUserPermissions env uid = Async.settles 15000 false) ∧
    (∀ t r, checkSystemAdminPermission env uid none = Async.settles t r →
        15000 ≤ t → checkUserPermissions env uid = Async.settles 15000 false) ∧
    (∀ s, env.getSession = Async.settles 0 (some s, none) →
        s.access_token ≠ "" →
        env.fetch (API_BASE_URL ++ permissionsEndpoint uid)
          ("Bearer " ++ s.access_token) = Async.hangs →
        checkSystemAdminPermission env uid (some s) =
          Async.settles 10000 (Except.ok false)) := by
  refine ⟨?_, ?_, ?_, ?_⟩
  · cases hc : checkSystemAdminPermission env uid none with
    | hangs =>
        exact ⟨15000, false, by unfold checkUserPermissions; rw [hc], le_refl _⟩
    | settles t r =>
        by_cases ht : t < 15000
        · exact ⟨t, catchFalse r,
            by unfold checkUserPermissions; rw [hc]; simp [ht], le_of_lt ht⟩
        · exact ⟨15000, false,
            by unfold checkUserPermissions; rw [hc]; simp [ht], le_refl _⟩
  · intro hc
    unfold checkUserPermissions
    rw [hc]
  · intro t r hc h15
    unfold checkUserPermissions
    rw [hc]
    simp [Nat.not_lt.mpr h15]
  · intro s hgs htok hfetch
    have hb : checkBody env uid (some s) =
        Async.settles 10000 (Except.error .abortTimeout) := by
      rw [checkBody_some_token env uid s htok]
      unfold permResult apiRequest
      rw [getAuthHeaders_settles env 0 (some s, none) hgs]
      simp [authHeaderResult, htok, hfetch, abortFetch]
    rw [check_of_body env uid (some s) 10000 _ hb]
    rfl

/-- Witness for the amended C3: in env3 the unwrapped check resolves false
at 22 seconds when called without a session, while the wrapped
checkUserPermissions resolves false at exactly 15 seconds; and in env4
(instant session store, unresponsive endpoint) the handler-style check
resolves false at the 10-second abort. -/
theorem c3_amended_fixed_timeout_witness :
    checkSystemAdminPermission env3 "u0" none =
      Async.settles 22000 (Except.ok false) ∧
    (15000 : Nat) ≤ 22000 ∧
    checkUserPermissions env3 "u0" = Async.settles 15000 false ∧
    env4.getSession = Async.settles 0 (some sess0, none) ∧
    sess0.access_token ≠ "" ∧
    env4.fetch (API_BASE_URL ++ permissionsEndpoint "u0")
      ("Bearer " ++ sess0.access_token) = Async.hangs ∧
    checkSystemAdminPermission env4 "u0" (some sess0) =
      Async.settles 10000 (Except.ok false) :=
  ⟨rfl, by decide,
   (c3_amended_fixed_timeout env3 "u0").2.2.1 22000 (Except.ok false) rfl (by decide),
   rfl, by decide, rfl,
   (c3_amended_fixed_timeout env4 "u0").2.2.2 sess0 rfl (by decide) rfl⟩

/-- C8 counterexample: apiRequest prefixes its /api/v1 base URL to the
endpoint string, which already starts with /api/v1, so the GET goes to
/api/v1/api/v1/admin/system/users/u0/permissions and not to the claimed
/api/v1/admin/system/users/u0/permissions: an environment answering the
admin body exactly at the claimed URL yields false, while one answering at
the doubled URL yields true. -/
theorem c8_url_counterexample :
    urlDoubled = API_BASE_URL ++ permissionsEndpoint "u0" ∧
    urlDoubled ≠ claimedUrl ∧
    checkSystemAdminPermission (envAt claimedUrl) "u0" (some sess0) =
      Async.settles 0 (Except.ok false) ∧
    checkSystemAdminPermission (envAt urlDoubled) "u0" (some sess0) =
      Async.settles 0 (Except.ok true) :=
  ⟨rfl, by decide, rfl, rfl⟩

/-- C8 amended: the permission lookup issues GET to the /api/v1 base
prefixed to /api/v1/admin/system/users/{userId}/permissions (a doubled
prefix) with the bearer Authorization header; it resolves true exactly when
the 2xx response body's is_system_admin field is strictly the boolean true,
and a non-2xx, unparseable or failed response resolves false. -/
theorem c8_amended_permission_lookup (env : Env) (uid : String) (s s2 : Session)
    (ts tf : Nat) (er : Option String) (o : FetchOutcome)
    (hs : s.access_token ≠ "")
    (hgs : env.getSession = Async.settles ts (some s2, er))
    (ht : s2.access_token ≠ "")
    (hf : env.fetch (API_BASE_URL ++ permissionsEndpoint uid)
        ("Bearer " ++ s2.access_token) = Async.settles tf o)
    (htf : tf < 10000) :
    (∀ body, o = FetchOutcome.success body →
        Async.resolvesTo (checkSystemAdminPermission env uid (some s))
          (Except.ok (strictTrue (Json.getField body "is_system_admin"))) ∧
        (strictTrue (Json.getField body "is_system_admin") = true ↔
          Json.getField body "is_system_admin" = some (Json.bool true))) ∧
    (∀ status body, o = FetchOutcome.httpError status body →
        Async.resolvesTo (checkSystemAdminPermission env uid (some s))
          (Except.ok false)) ∧
    (o = FetchOutcome.badBody →
        Async.resolvesTo (checkSystemAdminPermission env uid (some s))
          (Except.ok false)) ∧
    (∀ msg, o = FetchOutcome.networkError msg →
        Async.resolvesTo (checkSystemAdminPermission env uid (some s))
          (Except.ok false)) := by
  refine ⟨?_, ?_, ?_, ?_⟩
  · intro body hbody
    subst hbody
    exact ⟨⟨ts + tf, check_with_session env uid s s2 ts tf er _ hs hgs ht hf htf⟩,
      strictTrue_iff _⟩
  · intro status body hbody
    subst hbody
    exact ⟨ts + tf, check_with_session env uid s s2 ts tf er _ hs hgs ht hf htf⟩
  · intro hbody
    subst hbody
    exact ⟨ts + tf, check_with_session env uid s s2 ts tf er _ hs hgs ht hf htf⟩
  · intro msg hbody
    subst hbody
    exact ⟨ts + tf, check_with_session env uid s s2 ts tf er _ hs hgs ht hf htf⟩

/-- Witness for the amended C8: with the environment answering the admin
body at the doubled URL, the lookup resolves with the strict-true reading
of the is_system_admin field. -/
theorem c8_amended_permission_lookup_witness :
    sess0.access_token ≠ "" ∧
    (envAt urlDoubled).getSession = Async.settles 0 (some sess0, none) ∧
    (envAt urlDoubled).fetch (API_BASE_URL ++ permissionsEndpoint "u0")
      ("Bearer " ++ sess0.access_token) =
      Async.settles 0 (FetchOutcome.success adminBody) ∧
    (0 : Nat) < 10000 ∧
    Async.resolvesTo (checkSystemAdminPermission (envAt urlDoubled) "u0" (some sess0))
      (Except.ok (strictTrue (Json.getField adminBody "is_system_admin"))) :=
  ⟨by decide, rfl, rfl, by decide,
   ((c8_amended_permission_lookup (envAt urlDoubled) "u0" sess0 sess0 0 0 none
      (FetchOutcome.success adminBody) (by decide) rfl (by decide) rfl
      (by decide)).1 adminBody rfl).1⟩

/-- C4 counterexample: at mount, loading is true and the initial fetch is
outstanding; an INITIAL_SESSION session-change event is then handled, the
handler returns early, and loading is still true immediately after the
handler completes — the handler does not reset loading in its early-return
path, contradicting the claim that loading is false after every event
handler completes. -/
theorem c4_loading_counterexample :
    initMachine.st.loading = true ∧
    (step initMachine (.change .initialSession none)).st.loading = true :=
  ⟨rfl, rfl⟩

/-- C4 amended: for every session-change event other than INITIAL_SESSION,
and for the initial-session fetch (with or without a user, and on its error
path), loading is false immediately after the handler completes, because
the finally-equivalent block resets it; an INITIAL_SESSION handler returns
early without touching loading. -/
theorem c4_amended_loading_false (m : Machine) (s : Step)
    (h : handlerCompletes m s) : (step m s).st.loading = false := by
  cases s with
  | change ev sess =>
      cases ev <;> cases sess <;> simp_all [handlerCompletes, step, UNAUTHENTICATED]
  | initialFetch r =>
      rcases r with e | (_ | s) <;> simp_all [handlerCompletes, step]
  | resolveCheck id b =>
      simp only [handlerCompletes] at h
      simp [step, h]

/-- Witness for the amended C4: the sign-out handler completes in one step
and leaves loading false. -/
theorem c4_amended_loading_false_witness :
    handlerCompletes initMachine (.change .signedOut none) ∧
    (step initMachine (.change .signedOut none)).st.loading = false :=
  ⟨trivial, c4_amended_loading_false initMachine (.change .signedOut none) trivial⟩

/-- C5 counterexample: the initial fetch finds a session and suspends on a
permission check (token 0 outstanding); a sign-out event then clears the
snapshot to the unauthenticated state while the check is still outstanding;
when the stale check later resolves true, its continuation overwrites
isSystemAdmin with true (and no user is signed in), contradicting the claim
that the stale result never overwrites the signed-out state. -/
theorem c5_stale_overwrite_counterexample :
    (run initMachine (staleTrace.take 2)).st = UNAUTHENTICATED ∧
    0 ∈ (run initMachine (staleTrace.take 2)).pending ∧
    (run initMachine staleTrace).st =
      { user := none, session := none, loading := false, isSystemAdmin := true } := by
  refine ⟨rfl, ?_, rfl⟩
  decide

/-- C5 amended: handling a sign-out event immediately clears the snapshot
to the unauthenticated state, but an outstanding permission check is
neither cancelled nor guarded against staleness: when it resolves, its
continuation stores its result into isSystemAdmin (and resets loading),
overwriting the signed-out snapshot. -/
theorem c5_amended_stale_overwrites (m : Machine) (ev : AuthChangeEvent)
    (hev : ev ≠ .initialSession) (id : Nat) (b : Bool)
    (hid : id ∈ m.pending) :
    (step m (.change ev none)).st = UNAUTHENTICATED ∧
    (step (step m (.change ev none)) (.resolveCheck id b)).st =
      { user := none, session := none, loading := false, isSystemAdmin := b } := by
  cases ev <;> simp_all [step, UNAUTHENTICATED]

/-- Witness for the amended C5 along the concrete stale interleaving. -/
theorem c5_amended_stale_overwrites_witness :
    AuthChangeEvent.signedOut ≠ AuthChangeEvent.initialSession ∧
    0 ∈ (run initMachine [Step.initialFetch (.ok (some sess0))]).pending ∧
    (step (step (run initMachine [Step.initialFetch (.ok (some sess0))])
        (.change .signedOut none)) (.resolveCheck 0 true)).st =
      { user := none, session := none, loading := false, isSystemAdmin := true } :=
  ⟨by decide, by decide,
   (c5_amended_stale_overwrites (run initMachine [Step.initialFetch (.ok (some sess0))])
      .signedOut (by decide) 0 true (by decide)).2⟩

/-- C6: an INITIAL_SESSION session-change event is ignored by the handler:
the machine — state, outstanding checks and check counter alike — is left
exactly as it was, so no second permission check is started beyond the one
performed by the initial mount fetch. -/
theorem c6_initial_session_ignored (m : Machine) (sess : Option Session) :
    step m (.change .initialSession sess) = m := by
  cases sess <;> rfl

/-- C7: handling a session-change event with no user clears user and
session, resets isSystemAdmin and ends with loading false: the
unauthenticated state. -/
theorem c7_signout_unauthenticated (m : Machine) (ev : AuthChangeEvent)
    (h : ev ≠ .initialSession) :
    (step m (.change ev none)).st = UNAUTHENTICATED := by
  cases ev <;> simp_all [step]

/-- Witness for C7 at the concrete sign-out event. -/
theorem c7_signout_unauthenticated_witness :
    AuthChangeEvent.signedOut ≠ AuthChangeEvent.initialSession ∧
    (step initMachine (.change .signedOut none)).st = UNAUTHENTICATED :=
  ⟨by decide, c7_signout_unauthenticated initMachine .signedOut (by decide)⟩

/-- C9: the main frontend RouteGuard has a reverse-guard branch: when not
loading and a user is present on a route with requireAuth false, it
redirects to redirectPath, whose default is the root path; and it reads
only user and loading from the snapshot — its outcome is independent of the
admin flags, and it never yields the forbidden outcome. -/
theorem c9_main_route_guard (rp : String) (s : MainAuthState) :
    (∀ u, s.loading = false → s.user = some u →
        RouteGuard false rp s = .redirect rp) ∧
    defaultRedirectPath = "/" ∧
    (∀ ra u l a1 b1 a2 b2,
        RouteGuard ra rp { user := u, loading := l, isSystemAdmin := a1, isAdmin := b1 } =
        RouteGuard ra rp { user := u, loading := l, isSystemAdmin := a2, isAdmin := b2 }) ∧
    (∀ ra, RouteGuard ra rp s ≠ .forbidden) := by
  refine ⟨?_, rfl, fun ra u l a1 b1 a2 b2 => rfl, ?_⟩
  · intro u hl hu
    simp [RouteGuard, hl, hu]
  · intro ra
    unfold RouteGuard
    split_ifs <;> simp

/-- Witness for C9: a signed-in user on a requireAuth false route is
redirected to the given path, and a guarded snapshot never gets the
forbidden outcome. -/
theorem c9_main_route_guard_witness :
    RouteGuard false "/somewhere"
      { user := some u0, loading := false, isSystemAdmin := false, isAdmin := false } =
      .redirect "/somewhere" ∧
    RouteGuard true "/somewhere"
      { user := some u0, loading := false, isSystemAdmin := false, isAdmin := false } ≠
      .forbidden :=
  ⟨(c9_main_route_guard "/somewhere" _).1 u0 rfl rfl,
   (c9_main_route_guard "/somewhere" _).2.2.2 true⟩

/-- C10: in the main frontend, checkAdminPermission and
checkTenantAdminPermission return false for every user id without issuing
any backend request, and checkUserPermissions resets both admin flags to
false without issuing any backend request, so every session in the main
frontend resolves to non-admin. -/
theorem c10_main_checks_always_false :
    (∀ uid, checkAdminPermission uid = ([], false)) ∧
    (∀ uid tid, checkTenantAdminPermission uid tid = ([], false)) ∧
    (∀ s, mainCheckUserPermissions s =
        ({ s with isSystemAdmin := false, isAdmin := false }, [])) :=
  ⟨fun _ => rfl, fun _ _ => rfl, fun _ => rfl⟩

end Kagra
